import Mathlib

/-!
Shallow embedding of the drowsiness-detection core of the repository:
the per-frame eye-landmark geometry (src/src/utils/eyeDetection.ts) and
the alert emitter component (src/src/components/AlertSystem.tsx).

Modelling conventions:
* JavaScript numbers are modelled as ideal reals; the results of JS
  arithmetic that can produce non-finite values (division by zero in
  calculateEAR) are modelled by the type JsNum with explicit Infinity
  and NaN constructors, mirroring IEEE behaviour of the comparisons the
  code performs (Infinity > t is true, NaN > t is false).
* A thrown-and-caught JS exception is modelled by Option / Except: an
  out-of-bounds keypoint access in getEyeLandmarks throws in JS and is
  caught by the try/catch around the body of detectEyes, so extraction
  returns Option and detectEyes folds the none case into the same
  default branch as a detector failure.
* The mutable class field closedEyeFrameCount of EyeDetector is modelled
  by explicit state passing (DetectorState).
* The React component AlertSystem is modelled by its state record and
  the effect body; the effect has dependency array [isDrowsy, isPlaying]
  and therefore re-runs after any render in which either value changed.
-/

/-- A 2-D landmark point, `[x, y]` in the source. -/
abbrev Point : Type := ℝ × ℝ

/-- JS arithmetic result: a finite number, positive Infinity, or NaN. -/
inductive JsNum : Type where
  | fin (x : ℝ)
  | inf
  | nan

/-- euclideanDistance from eyeDetection.ts: sqrt (dx*dx + dy*dy). -/
noncomputable def euclideanDistance (point1 point2 : Point) : ℝ :=
  Real.sqrt ((point1.1 - point2.1) * (point1.1 - point2.1) +
    (point1.2 - point2.2) * (point1.2 - point2.2))

/-- calculateEAR from eyeDetection.ts.  With fewer than 6 points it
returns 0.  Otherwise it computes (d1 + d2) / (2 * d3) with
d1 = dist(p1, p5), d2 = dist(p2, p4), d3 = dist(p0, p3); the source has
no guard for d3 = 0, and JS division by zero yields Infinity (or NaN
when the numerator is also zero).  The local constants d1, d2, d3 of
the source are inlined here. -/
noncomputable def calculateEAR (eyeLandmarks : List Point) : JsNum :=
  if eyeLandmarks.length < 6 then JsNum.fin 0
  else if 2 * euclideanDistance (eyeLandmarks.getD 0 default) (eyeLandmarks.getD 3 default) = 0 then
    (if euclideanDistance (eyeLandmarks.getD 1 default) (eyeLandmarks.getD 5 default) +
        euclideanDistance (eyeLandmarks.getD 2 default) (eyeLandmarks.getD 4 default) = 0
      then JsNum.nan else JsNum.inf)
  else
    JsNum.fin
      ((euclideanDistance (eyeLandmarks.getD 1 default) (eyeLandmarks.getD 5 default) +
        euclideanDistance (eyeLandmarks.getD 2 default) (eyeLandmarks.getD 4 default)) /
       (2 * euclideanDistance (eyeLandmarks.getD 0 default) (eyeLandmarks.getD 3 default)))

/-- The JS comparison `ear > t` for a possibly non-finite ear value. -/
noncomputable def jsGreaterThan : JsNum → ℝ → Bool
  | JsNum.fin x, t => decide (t < x)
  | JsNum.inf, _ => true
  | JsNum.nan, _ => false

/-- JS addition on possibly non-finite values (only the cases the code
can produce: finite values, +Infinity and NaN). -/
def JsNum.add : JsNum → JsNum → JsNum
  | JsNum.nan, _ => JsNum.nan
  | _, JsNum.nan => JsNum.nan
  | JsNum.inf, _ => JsNum.inf
  | _, JsNum.inf => JsNum.inf
  | JsNum.fin x, JsNum.fin y => JsNum.fin (x + y)

/-- JS division by the constant 2, used for `(leftEAR + rightEAR) / 2`. -/
noncomputable def JsNum.halfOf : JsNum → JsNum
  | JsNum.nan => JsNum.nan
  | JsNum.inf => JsNum.inf
  | JsNum.fin x => JsNum.fin (x / 2)

/-- EAR_THRESHOLD from EyeDetector. -/
def EAR_THRESHOLD : ℝ := 0.25

/-- CONSECUTIVE_FRAMES_THRESHOLD from EyeDetector. -/
def CONSECUTIVE_FRAMES_THRESHOLD : Nat := 20

/-- The mutable state of an EyeDetector instance (after the model has
loaded): the consecutive closed-eye frame counter. -/
structure DetectorState : Type where
  closedEyeFrameCount : Nat
deriving DecidableEq

structure BoundingBox : Type where
  x : ℝ
  y : ℝ
  width : ℝ
  height : ℝ

structure EyeData : Type where
  isOpen : Bool
  landmarks : List Point
  boundingBox : BoundingBox

/-- The `eyeAspectRatio` record of EyeDetectionResult. -/
structure EarValues : Type where
  left : JsNum
  right : JsNum
  average : JsNum

/-- EyeDetectionResult from eyeDetection.ts. -/
structure EyeDetectionResult : Type where
  leftEye : EyeData
  rightEye : EyeData
  faceDetected : Bool
  eyeAspectRatio : EarValues

/-- Fixed MediaPipe landmark index list for the left eye. -/
def leftEyeIndices : List Nat :=
  [33, 7, 163, 144, 145, 153, 154, 155, 133, 173, 157, 158, 159, 160, 161, 246]

/-- Fixed MediaPipe landmark index list for the right eye. -/
def rightEyeIndices : List Nat :=
  [362, 382, 381, 380, 374, 373, 390, 249, 263, 466, 388, 387, 386, 385, 384, 398]

/-- getEyeLandmarks: gather the fixed index list from the keypoint
array.  In JS an out-of-range access yields undefined and `point.x`
throws; the throw is modelled by none (it is caught by the try/catch in
detectEyes). -/
def getEyeLandmarks (keypoints : List Point) (eyeIsLeft : Bool) : Option (List Point) :=
  let indices := if eyeIsLeft then leftEyeIndices else rightEyeIndices
  indices.mapM (fun index => keypoints[index]?)

/-- calculateEyeBoundingBox from eyeDetection.ts. -/
noncomputable def calculateEyeBoundingBox (landmarks : List Point) : BoundingBox :=
  if landmarks.length = 0 then ⟨0, 0, 0, 0⟩
  else
    let xs := landmarks.map (fun point => point.1)
    let ys := landmarks.map (fun point => point.2)
    let minX := xs.foldr min (xs.getD 0 0)
    let maxX := xs.foldr max (xs.getD 0 0)
    let minY := ys.foldr min (ys.getD 0 0)
    let maxY := ys.foldr max (ys.getD 0 0)
    ⟨minX, minY, maxX - minX, maxY - minY⟩

/-- getDefaultResult from eyeDetection.ts: both eyes default open, no
landmarks, zero bounding boxes and zero ratios. -/
def getDefaultResult (faceDetected : Bool) : EyeDetectionResult where
  leftEye := { isOpen := true, landmarks := [], boundingBox := ⟨0, 0, 0, 0⟩ }
  rightEye := { isOpen := true, landmarks := [], boundingBox := ⟨0, 0, 0, 0⟩ }
  faceDetected := faceDetected
  eyeAspectRatio := { left := JsNum.fin 0, right := JsNum.fin 0, average := JsNum.fin 0 }

/-- The per-frame counter update of detectEyes (the lines
`if (!bothEyesOpen) closedEyeFrameCount++ else closedEyeFrameCount = 0`). -/
def trackClosedFrames (closedEyeFrameCount : Nat) (bothEyesOpen : Bool) : Nat :=
  if !bothEyesOpen then closedEyeFrameCount + 1 else 0

/-- Per-frame input to detectEyes, after the external estimateFaces
call: no face found, the detector call threw, or a face with its
keypoint array. -/
inductive FrameInput : Type where
  | noFace
  | detectorFailure
  | face (keypoints : List Point)

/-- detectEyes from eyeDetection.ts, as a state transformer on the
detector state (model assumed loaded).  A detector failure or a thrown
keypoint access is caught by the try/catch and yields the default
result with the state untouched. -/
noncomputable def detectEyes (s : DetectorState) (input : FrameInput) :
    EyeDetectionResult × DetectorState :=
  match input with
  | FrameInput.noFace => (getDefaultResult false, s)
  | FrameInput.detectorFailure => (getDefaultResult false, s)
  | FrameInput.face keypoints =>
    match getEyeLandmarks keypoints true, getEyeLandmarks keypoints false with
    | some leftEyeLandmarks, some rightEyeLandmarks =>
      let leftEAR := calculateEAR leftEyeLandmarks
      let rightEAR := calculateEAR rightEyeLandmarks
      let averageEAR := JsNum.halfOf (JsNum.add leftEAR rightEAR)
      let leftEyeOpen := jsGreaterThan leftEAR EAR_THRESHOLD
      let rightEyeOpen := jsGreaterThan rightEAR EAR_THRESHOLD
      let bothEyesOpen := leftEyeOpen && rightEyeOpen
      let leftEyeData : EyeData :=
        ⟨leftEyeOpen, leftEyeLandmarks, calculateEyeBoundingBox leftEyeLandmarks⟩
      let rightEyeData : EyeData :=
        ⟨rightEyeOpen, rightEyeLandmarks, calculateEyeBoundingBox rightEyeLandmarks⟩
      (⟨leftEyeData, rightEyeData, true, ⟨leftEAR, rightEAR, averageEAR⟩⟩,
       ⟨trackClosedFrames s.closedEyeFrameCount bothEyesOpen⟩)
    | _, _ => (getDefaultResult false, s)

/-- isDrowsy from eyeDetection.ts: closedEyeFrameCount >= threshold. -/
def isDrowsy (s : DetectorState) : Bool :=
  decide (CONSECUTIVE_FRAMES_THRESHOLD ≤ s.closedEyeFrameCount)

/-- getClosedEyeFrameCount from eyeDetection.ts. -/
def getClosedEyeFrameCount (s : DetectorState) : Nat :=
  s.closedEyeFrameCount

/-- getClosedEyeDuration from eyeDetection.ts: returns the frame count
unchanged (the source comment reads: seconds, assuming 1 FPS). -/
def getClosedEyeDuration (s : DetectorState) : Nat :=
  s.closedEyeFrameCount

/-- resetFrameCount from eyeDetection.ts. -/
def resetFrameCount (s : DetectorState) : DetectorState :=
  { s with closedEyeFrameCount := 0 }

/-- getAlertLevel from AlertSystem.tsx maps closedEyeDuration to a
severity level via the cutoffs 20 / 15 / 10 / 5. -/
inductive AlertLevel : Type where
  | normal
  | warning
  | medium
  | high
  | critical
deriving DecidableEq

/-- Numeric rank of an alert level, for stating monotonicity. -/
def AlertLevel.rank : AlertLevel → Nat
  | AlertLevel.normal => 0
  | AlertLevel.warning => 1
  | AlertLevel.medium => 2
  | AlertLevel.high => 3
  | AlertLevel.critical => 4

/-- getAlertLevel from AlertSystem.tsx. -/
def getAlertLevel (closedEyeDuration : Nat) : AlertLevel :=
  if closedEyeDuration ≥ 20 then AlertLevel.critical
  else if closedEyeDuration ≥ 15 then AlertLevel.high
  else if closedEyeDuration ≥ 10 then AlertLevel.medium
  else if closedEyeDuration ≥ 5 then AlertLevel.warning
  else AlertLevel.normal

/-- The React state of the AlertSystem component, plus two observation
counters for the side effects: soundsStarted counts successful
playAlertSound cue starts, errorsLogged counts console.error calls in
its catch block.  lastAlertSet records whether setLastAlertTime has
ever run. -/
structure AlertState : Type where
  alertCount : Nat
  isPlaying : Bool
  lastAlertSet : Bool
  soundsStarted : Nat
  errorsLogged : Nat
deriving DecidableEq

/-- Initial component state: alertCount 0, not playing, no timestamp. -/
def initialAlertState : AlertState := ⟨0, false, false, 0, 0⟩

/-- The try-block of playAlertSound: creating the AudioContext and
starting the oscillator may throw (modelled by the audioFails oracle);
on success a cue is started. -/
def startCue (audioFails : Bool) (s : AlertState) : Except Unit AlertState :=
  if audioFails then Except.error ()
  else Except.ok { s with soundsStarted := s.soundsStarted + 1 }

/-- playAlertSound from AlertSystem.tsx: the try/catch around the cue
start.  On a throw the catch logs the error and calls
setIsPlaying(false); the function itself never propagates the error. -/
def playAlertSound (audioFails : Bool) (s : AlertState) : AlertState :=
  match startCue audioFails s with
  | Except.ok s1 => s1
  | Except.error _ => { s with isPlaying := false, errorsLogged := s.errorsLogged + 1 }

/-- The body of the useEffect in AlertSystem.tsx: if isDrowsy, bump
alertCount, record the timestamp, and if not already playing set
isPlaying true and call playAlertSound; otherwise set isPlaying
false. -/
def runAlertEffect (audioFails : Bool) (isDrowsyProp : Bool) (s : AlertState) : AlertState :=
  if isDrowsyProp then
    let s1 := { s with alertCount := s.alertCount + 1, lastAlertSet := true }
    if !s.isPlaying then playAlertSound audioFails { s1 with isPlaying := true }
    else s1
  else { s with isPlaying := false }

/-- React runs the effect after every render in which a dependency of
[isDrowsy, isPlaying] changed.  Setting isPlaying inside the effect
re-renders and re-runs the effect once more; the second run can never
flip isPlaying again (drowsy keeps it true, non-drowsy keeps it false),
so the cascade stabilises after at most two runs. -/
def alertEffectCascade (audioFails : Bool) (isDrowsyProp : Bool) (s : AlertState) : AlertState :=
  let s1 := runAlertEffect audioFails isDrowsyProp s
  if s1.isPlaying ≠ s.isPlaying then runAlertEffect audioFails isDrowsyProp s1 else s1

/-- One frame of the component lifecycle: the new isDrowsy prop value
arrives, and the effect runs when the dependencies differ from those of
the last effect execution (none means the component just mounted, where
the effect always runs). -/
def alertStep (audioFails : Bool) (st : AlertState × Option (Bool × Bool)) (isDrowsyProp : Bool) :
    AlertState × Option (Bool × Bool) :=
  match st.2 with
  | none =>
    let s1 := alertEffectCascade audioFails isDrowsyProp st.1
    (s1, some (isDrowsyProp, s1.isPlaying))
  | some prevDeps =>
    if (isDrowsyProp, st.1.isPlaying) ≠ prevDeps then
      let s1 := alertEffectCascade audioFails isDrowsyProp st.1
      (s1, some (isDrowsyProp, s1.isPlaying))
    else (st.1, some prevDeps)

/-- Run the AlertSystem component over a sequence of per-frame isDrowsy
prop values, starting from mount.  The 2-second cue expiry timer is not
modelled here: it can only cause additional effect executions (and so
additional alertCount increments) between frames. -/
def runAlertSystem (audioFails : Bool) (isDrowsySeq : List Bool) : AlertState :=
  (isDrowsySeq.foldl (alertStep audioFails) (initialAlertState, none)).1

/-- Rising-edge count of a boolean signal (the specification's notion:
a false-to-true transition, the signal starting at the given previous
value). -/
def countRisingEdges : Bool → List Bool → Nat
  | _, [] => 0
  | prev, d :: rest => (if d && !prev then 1 else 0) + countRisingEdges d rest

/-- Counter trace of the temporal accumulator over a sequence of
bothEyesOpen verdicts: the counter value after each frame. -/
def counterTrace (c0 : Nat) (verdicts : List Bool) : List Nat :=
  (verdicts.scanl trackClosedFrames c0).tail

/-- Tier trace over a sequence of bothEyesOpen verdicts: the alert
level derived (as in AlertSystem.tsx) from the counter after each
frame. -/
def tierTrace (c0 : Nat) (verdicts : List Bool) : List AlertLevel :=
  (counterTrace c0 verdicts).map getAlertLevel

/-- Six landmark points whose horizontal pair (positions 0 and 3)
coincide while the vertical pairs are one unit apart. -/
def degenerateEye : List Point :=
  [((0 : ℝ), (0 : ℝ)), (0, 0), (0, 0), (0, 0), (0, 1), (0, 1)]

/-- A landmark set with only five points (fewer than the six the ratio
formula needs). -/
def fivePointEye : List Point :=
  [((0 : ℝ), (0 : ℝ)), (0, 1), (0, 1), (1, 0), (0, 1)]

/-- The isDrowsy transition sequence named by the specification. -/
def drowsyPropSeq : List Bool := [false, false, true, true, true, false, true]

/-- C3: any run of N frames classified both-eyes-closed followed by one
frame classified both-eyes-open leaves the consecutive-closed-frames
counter at exactly 0, from any starting counter value; and each closed
frame increments the counter by exactly 1. -/
theorem closedFrames_reset_and_increment :
    (∀ (c0 N : Nat),
      (List.replicate N false ++ [true]).foldl trackClosedFrames c0 = 0) ∧
    (∀ c : Nat, trackClosedFrames c false = c + 1) := by
  constructor
  · intro c0 N
    simp [List.foldl_append, trackClosedFrames]
  · intro c
    simp [trackClosedFrames]

/-- C4: the externally consumed alert boolean isDrowsy is false for
every counter value in [0, 19] and true for every counter value at
least 20. -/
theorem isDrowsy_threshold :
    ∀ c : Nat, (c ≤ 19 → isDrowsy ⟨c⟩ = false) ∧ (20 ≤ c → isDrowsy ⟨c⟩ = true) := by
  intro c
  constructor <;> intro h <;>
    simp [isDrowsy, CONSECUTIVE_FRAMES_THRESHOLD] <;> omega

/-- Witness for C4 at the boundary values 19 and 20. -/
theorem isDrowsy_threshold_witness :
    isDrowsy ⟨19⟩ = false ∧ isDrowsy ⟨20⟩ = true :=
  ⟨(isDrowsy_threshold 19).1 (by decide), (isDrowsy_threshold 20).2 (by decide)⟩

/-- C5: getAlertLevel is a monotonic step function of the counter with
boundaries 5, 10, 15, 20, taking the stated value at each probe point
and staying critical for every counter of at least 20. -/
theorem getAlertLevel_tier_function :
    (∀ a b : Nat, a ≤ b → (getAlertLevel a).rank ≤ (getAlertLevel b).rank) ∧
    getAlertLevel 4 = AlertLevel.normal ∧
    getAlertLevel 5 = AlertLevel.warning ∧
    getAlertLevel 9 = AlertLevel.warning ∧
    getAlertLevel 10 = AlertLevel.medium ∧
    getAlertLevel 14 = AlertLevel.medium ∧
    getAlertLevel 15 = AlertLevel.high ∧
    getAlertLevel 19 = AlertLevel.high ∧
    getAlertLevel 20 = AlertLevel.critical ∧
    (∀ c : Nat, 20 ≤ c → getAlertLevel c = AlertLevel.critical) ∧
    getAlertLevel 1000 = AlertLevel.critical := by
  refine ⟨?_, by decide, by decide, by decide, by decide, by decide,
    by decide, by decide, by decide, ?_, by decide⟩
  · intro a b h
    unfold getAlertLevel
    split_ifs <;> simp [AlertLevel.rank] <;> omega
  · intro c h
    unfold getAlertLevel
    rw [if_pos (by omega : c ≥ 20)]

/-- Witness for C5: the monotonicity part applied at 3 ≤ 7 and the
critical tail applied at 42. -/
theorem getAlertLevel_tier_function_witness :
    (getAlertLevel 3).rank ≤ (getAlertLevel 7).rank ∧
    getAlertLevel 42 = AlertLevel.critical :=
  ⟨getAlertLevel_tier_function.1 3 7 (by decide),
   (getAlertLevel_tier_function.2.2.2.2.2.2.2.2.2).1 42 (by decide)⟩

/-- C2 (evaluation at the failing input): over the specification's
transition sequence false,false,true,true,true,false,true there are
exactly two rising edges, yet the component ends with alertCount 4: the
effect has isPlaying in its dependency array, so every rising edge runs
the effect twice (the second run re-increments), even before the
2-second cue timer causes further executions. -/
theorem alertCount_overcounts_rising_edges :
    countRisingEdges false drowsyPropSeq = 2 ∧
    (runAlertSystem false drowsyPropSeq).alertCount = 4 ∧
    (runAlertSystem false drowsyPropSeq).soundsStarted = 2 := by
  decide

/-- C8: the tier sequence is a deterministic function of the verdict
sequence alone once resetFrameCount has run: any two detector states
agree after a reset, and re-feeding the same sequence after a second
reset reproduces the same tier sequence. -/
theorem tier_sequence_deterministic :
    (∀ (s1 s2 : DetectorState) (verdicts : List Bool),
      tierTrace (resetFrameCount s1).closedEyeFrameCount verdicts =
        tierTrace (resetFrameCount s2).closedEyeFrameCount verdicts) ∧
    (∀ (s : DetectorState) (verdicts : List Bool),
      tierTrace (resetFrameCount s).closedEyeFrameCount verdicts =
        tierTrace (resetFrameCount
          ⟨verdicts.foldl trackClosedFrames
            (resetFrameCount s).closedEyeFrameCount⟩).closedEyeFrameCount verdicts) :=
  ⟨fun _ _ _ => rfl, fun _ _ => rfl⟩

/-- C9: a cue-playback failure is caught inside playAlertSound: the
try-block error does not propagate (playAlertSound still returns a
state), the error is logged, isPlaying is forced to false, and the
effect path that starts a cue also ends with isPlaying false, so a
failed cue never blocks later alerts.  alertCount is untouched by the
handler. -/
theorem playAlertSound_failure_contained :
    ∀ s : AlertState,
      startCue true s = Except.error () ∧
      (playAlertSound true s).isPlaying = false ∧
      (playAlertSound true s).errorsLogged = s.errorsLogged + 1 ∧
      (playAlertSound true s).alertCount = s.alertCount ∧
      (runAlertEffect true true { s with isPlaying := false }).isPlaying = false := by
  intro s
  refine ⟨rfl, rfl, rfl, rfl, ?_⟩
  simp [runAlertEffect, playAlertSound, startCue]

/-- C10: for every detector state, getClosedEyeDuration returns exactly
getClosedEyeFrameCount: the duration reported in seconds is the raw
consecutive-closed-frame count with no time scaling. -/
theorem closedEyeDuration_is_frameCount :
    ∀ s : DetectorState,
      getClosedEyeDuration s = getClosedEyeFrameCount s ∧
      getClosedEyeDuration s = s.closedEyeFrameCount :=
  fun _ => ⟨rfl, rfl⟩

/-- Every euclideanDistance value is a square root, hence non-negative. -/
theorem euclideanDistance_nonneg (p q : Point) : 0 ≤ euclideanDistance p q :=
  Real.sqrt_nonneg _

/-- C1 (counterexample): on a six-point landmark set whose horizontal
pair coincides but whose vertical pairs are apart, calculateEAR divides
by zero and yields Infinity, not the 0 the claim requires. -/
theorem calculateEAR_zero_width_counterexample :
    calculateEAR degenerateEye = JsNum.inf ∧ JsNum.inf ≠ JsNum.fin 0 := by
  have h1 : euclideanDistance ((0 : ℝ), (0 : ℝ)) ((0 : ℝ), (1 : ℝ)) = 1 := by
    unfold euclideanDistance
    rw [show ((0 : ℝ) - 0) * ((0 : ℝ) - 0) + ((0 : ℝ) - 1) * ((0 : ℝ) - 1) = 1 by ring]
    exact Real.sqrt_one
  have h0 : euclideanDistance ((0 : ℝ), (0 : ℝ)) ((0 : ℝ), (0 : ℝ)) = 0 := by
    unfold euclideanDistance
    rw [show ((0 : ℝ) - 0) * ((0 : ℝ) - 0) + ((0 : ℝ) - 0) * ((0 : ℝ) - 0) = 0 by ring]
    exact Real.sqrt_zero
  constructor
  · unfold calculateEAR
    rw [if_neg (by norm_num [degenerateEye])]
    simp only [degenerateEye, List.getD_cons_succ, List.getD_cons_zero]
    simp only [h0, h1]
    norm_num
  · intro h
    cases h

/-- C1 (amended): with at least six points whose horizontal pair
coincides, calculateEAR returns the non-finite value Infinity or NaN
(it divides by zero rather than returning 0); it never raises, and any
finite value it returns is non-negative. -/
theorem calculateEAR_degenerate_amended :
    (∀ lms : List Point, 6 ≤ lms.length →
      lms.getD 0 default = lms.getD 3 default →
      calculateEAR lms = JsNum.inf ∨ calculateEAR lms = JsNum.nan) ∧
    (∀ (lms : List Point) (x : ℝ), calculateEAR lms = JsNum.fin x → 0 ≤ x) := by
  constructor
  · intro lms h6 heq
    have hd3 : euclideanDistance (lms.getD 0 default) (lms.getD 3 default) = 0 := by
      rw [heq]
      unfold euclideanDistance
      rw [show (((lms.getD 3 default).1 - (lms.getD 3 default).1) *
          ((lms.getD 3 default).1 - (lms.getD 3 default).1) +
          ((lms.getD 3 default).2 - (lms.getD 3 default).2) *
          ((lms.getD 3 default).2 - (lms.getD 3 default).2)) = 0 by ring]
      exact Real.sqrt_zero
    unfold calculateEAR
    rw [if_neg (by omega)]
    rw [hd3]
    rw [if_pos (by ring)]
    by_cases hnum :
        euclideanDistance (lms.getD 1 default) (lms.getD 5 default) +
          euclideanDistance (lms.getD 2 default) (lms.getD 4 default) = 0
    · right
      rw [if_pos hnum]
    · left
      rw [if_neg hnum]
  · intro lms x h
    unfold calculateEAR at h
    by_cases hlen : lms.length < 6
    · rw [if_pos hlen, JsNum.fin.injEq] at h
      exact le_of_eq h
    · rw [if_neg hlen] at h
      by_cases hz : 2 * euclideanDistance (lms.getD 0 default) (lms.getD 3 default) = 0
      · rw [if_pos hz] at h
        by_cases hnum : euclideanDistance (lms.getD 1 default) (lms.getD 5 default) +
            euclideanDistance (lms.getD 2 default) (lms.getD 4 default) = 0
        · rw [if_pos hnum] at h
          cases h
        · rw [if_neg hnum] at h
          cases h
      · rw [if_neg hz] at h
        rw [JsNum.fin.injEq] at h
        rw [← h]
        refine div_nonneg (add_nonneg (euclideanDistance_nonneg _ _)
          (euclideanDistance_nonneg _ _)) ?_
        have h03 := euclideanDistance_nonneg (lms.getD 0 default) (lms.getD 3 default)
        linarith

/-- Witness for the amended C1, on the degenerate six-point eye and on
the empty landmark list (whose ratio is the finite value 0). -/
theorem calculateEAR_degenerate_amended_witness :
    (calculateEAR degenerateEye = JsNum.inf ∨ calculateEAR degenerateEye = JsNum.nan) ∧
    (0 : ℝ) ≤ 0 :=
  ⟨calculateEAR_degenerate_amended.1 degenerateEye (by norm_num [degenerateEye]) rfl,
   calculateEAR_degenerate_amended.2 [] 0 (by unfold calculateEAR; norm_num)⟩

/-- C7 (counterexample): for an eye with fewer than 6 landmark points
the ratio is 0, but the per-eye verdict computed by detectEyes, namely
ratio > EAR_THRESHOLD, is then false (the eye counts as closed), not
the open-by-convention the claim states. -/
theorem indeterminate_eye_counterexample :
    calculateEAR fivePointEye = JsNum.fin 0 ∧
    jsGreaterThan (calculateEAR fivePointEye) EAR_THRESHOLD = false := by
  have h : calculateEAR fivePointEye = JsNum.fin 0 := by
    unfold calculateEAR
    rw [if_pos (by norm_num [fivePointEye])]
  refine ⟨h, ?_⟩
  rw [h]
  simp only [jsGreaterThan, EAR_THRESHOLD, decide_eq_false_iff_not]
  norm_num

/-- C7 (amended): an eye with fewer than 6 landmark points gets ratio
exactly 0 and contributes 0 to the averaged ratio, but its is_open
verdict is false (0 does not exceed the 0.25 threshold); the
open-by-convention default applies only to the no-face / detector
failure result. -/
theorem indeterminate_eye_amended :
    ∀ lms : List Point, lms.length < 6 →
      calculateEAR lms = JsNum.fin 0 ∧
      jsGreaterThan (calculateEAR lms) EAR_THRESHOLD = false ∧
      (∀ r : ℝ, JsNum.halfOf (JsNum.add (calculateEAR lms) (JsNum.fin r)) =
        JsNum.fin ((0 + r) / 2)) := by
  intro lms hlen
  have h : calculateEAR lms = JsNum.fin 0 := by
    unfold calculateEAR
    rw [if_pos hlen]
  refine ⟨h, ?_, ?_⟩
  · rw [h]
    simp only [jsGreaterThan, EAR_THRESHOLD, decide_eq_false_iff_not]
    norm_num
  · intro r
    rw [h]
    rfl

/-- Witness for the amended C7 on the five-point eye, with the other
eye's finite ratio 3 in the average. -/
theorem indeterminate_eye_amended_witness :
    calculateEAR fivePointEye = JsNum.fin 0 ∧
    jsGreaterThan (calculateEAR fivePointEye) EAR_THRESHOLD = false ∧
    JsNum.halfOf (JsNum.add (calculateEAR fivePointEye) (JsNum.fin 3)) =
      JsNum.fin ((0 + 3) / 2) := by
  obtain ⟨h1, h2, h3⟩ := indeterminate_eye_amended fivePointEye (by norm_num [fivePointEye])
  exact ⟨h1, h2, h3 3⟩

/-- C6: a frame with no detected face, and a frame on which the
detector call failed, both produce the default result: face_detected
false, both eyes defaulted to open, all three ratios 0, and the
consecutive-closed-frames counter is passed through unchanged. -/
theorem detectEyes_default_on_missing :
    ∀ (s : DetectorState) (input : FrameInput),
      input = FrameInput.noFace ∨ input = FrameInput.detectorFailure →
      detectEyes s input = (getDefaultResult false, s) ∧
      (getDefaultResult false).faceDetected = false ∧
      (getDefaultResult false).leftEye.isOpen = true ∧
      (getDefaultResult false).rightEye.isOpen = true ∧
      EyeDetectionResult.eyeAspectRatio (getDefaultResult false) =
        ⟨JsNum.fin 0, JsNum.fin 0, JsNum.fin 0⟩ := by
  intro s input h
  rcases h with h | h <;> subst h <;> exact ⟨rfl, rfl, rfl, rfl, rfl⟩

/-- Witness for C6 at counter value 7, for both failure inputs. -/
theorem detectEyes_default_on_missing_witness :
    detectEyes ⟨7⟩ FrameInput.noFace = (getDefaultResult false, (⟨7⟩ : DetectorState)) ∧
    detectEyes ⟨7⟩ FrameInput.detectorFailure = (getDefaultResult false, (⟨7⟩ : DetectorState)) :=
  ⟨(detectEyes_default_on_missing ⟨7⟩ FrameInput.noFace (Or.inl rfl)).1,
   (detectEyes_default_on_missing ⟨7⟩ FrameInput.detectorFailure (Or.inr rfl)).1⟩
